import Mathlib

/-!
Shallow embedding of the AiVoicePhone backend (an AI voice receptionist):
the dialogue service (`src/services/dialogue_service.py`), the speech
service (`src/services/speech_service.py`) and the HTTP route handlers
(`src/routes/voice_api.py`), together with theorems checking the
specification's statements against these definitions.

The ORM model classes (`src/models/call.py`) are not part of the three
source files; the record shapes below are modelled from the spec's data
model section, restricted to the fields the embedded code reads or
writes.  The database session is modelled explicitly as a pair of
snapshots (committed / current), with `commit` copying current into
committed and `rollback` copying committed back into current.
-/

namespace AiVoicePhone

/-! ### Association-list helpers (Python dict / keyed table rows) -/

/-- Lookup in an association list; models Python dict lookup and
`Model.query.get(key)` / `filter_by(key=...).first()`. -/
def lookupA {κ α : Type} [DecidableEq κ] : List (κ × α) → κ → Option α
  | [], _ => none
  | (k', v) :: t, k => if k' = k then some v else lookupA t k

/-- Insert-or-update in an association list; models Python dict assignment
and an ORM row field update. -/
def setA {κ α : Type} [DecidableEq κ] : List (κ × α) → κ → α → List (κ × α)
  | [], k, v => [(k, v)]
  | (k', v') :: t, k, v =>
      if k' = k then (k, v) :: t else (k', v') :: setA t k v

/-- Remove a key from an association list; models Python `del d[k]`. -/
def eraseA {κ α : Type} [DecidableEq κ] : List (κ × α) → κ → List (κ × α)
  | [], _ => []
  | (k', v') :: t, k =>
      if k' = k then eraseA t k else (k', v') :: eraseA t k

theorem lookupA_setA_self {κ α : Type} [DecidableEq κ]
    (l : List (κ × α)) (k : κ) (v : α) : lookupA (setA l k v) k = some v := by
  induction l with
  | nil => simp [setA, lookupA]
  | cons hd t ih =>
      obtain ⟨k', v'⟩ := hd
      by_cases h : k' = k <;> simp [setA, lookupA, h, ih]

theorem lookupA_setA_ne {κ α : Type} [DecidableEq κ]
    (l : List (κ × α)) (k k' : κ) (v : α) (h : k' ≠ k) :
    lookupA (setA l k v) k' = lookupA l k' := by
  have hk : k ≠ k' := Ne.symm h
  induction l with
  | nil => simp [setA, lookupA, hk]
  | cons hd t ih =>
      obtain ⟨k0, v0⟩ := hd
      by_cases h0 : k0 = k
      · subst h0
        simp [setA, lookupA, hk]
      · simp [setA, lookupA, h0, ih]

theorem lookupA_eraseA_self {κ α : Type} [DecidableEq κ]
    (l : List (κ × α)) (k : κ) : lookupA (eraseA l k) k = none := by
  induction l with
  | nil => simp [eraseA, lookupA]
  | cons hd t ih =>
      obtain ⟨k', v'⟩ := hd
      by_cases h : k' = k <;> simp [eraseA, lookupA, h, ih]

theorem eraseA_eraseA {κ α : Type} [DecidableEq κ]
    (l : List (κ × α)) (k : κ) : eraseA (eraseA l k) k = eraseA l k := by
  induction l with
  | nil => simp [eraseA]
  | cons hd t ih =>
      obtain ⟨k', v'⟩ := hd
      by_cases h : k' = k <;> simp [eraseA, h, ih]

theorem setA_setA_self {κ α : Type} [DecidableEq κ]
    (l : List (κ × α)) (k : κ) (v w : α) :
    setA (setA l k v) k w = setA l k w := by
  induction l with
  | nil => simp [setA]
  | cons hd t ih =>
      obtain ⟨k', v'⟩ := hd
      by_cases h : k' = k <;> simp [setA, h, ih]

/-! ### Substring matching (Python `needle in haystack`) -/

/-- `isPrefixL n h`: the char list `n` is a prefix of `h`. -/
def isPrefixL : List Char → List Char → Bool
  | [], _ => true
  | _ :: _, [] => false
  | a :: as, b :: bs => a = b && isPrefixL as bs

/-- `isInfixL n h`: the char list `n` occurs contiguously inside `h`;
executable form of Python's `in` on strings. -/
def isInfixL (n : List Char) : List Char → Bool
  | [] => isPrefixL n []
  | b :: bs => isPrefixL n (b :: bs) || isInfixL n bs

/-- Python's `needle in haystack` on strings. -/
def strContains (haystack needle : String) : Bool :=
  isInfixL needle.data haystack.data

theorem isPrefixL_iff (n h : List Char) :
    isPrefixL n h = true ↔ ∃ t, n ++ t = h := by
  induction n generalizing h with
  | nil => simp [isPrefixL]
  | cons a as ih =>
      cases h with
      | nil =>
          simp [isPrefixL]
      | cons b bs =>
          simp only [isPrefixL, Bool.and_eq_true, decide_eq_true_eq, ih]
          constructor
          · rintro ⟨rfl, t, rfl⟩
            exact ⟨t, rfl⟩
          · rintro ⟨t, ht⟩
            injection ht with h1 h2
            exact ⟨h1, t, h2⟩

theorem isInfixL_iff (n h : List Char) :
    isInfixL n h = true ↔ ∃ u v, u ++ n ++ v = h := by
  induction h with
  | nil =>
      simp only [isInfixL, isPrefixL_iff]
      constructor
      · rintro ⟨t, ht⟩
        exact ⟨[], t, by simpa using ht⟩
      · rintro ⟨u, v, huv⟩
        rcases List.append_eq_nil.mp huv with ⟨h1, h2⟩
        rcases List.append_eq_nil.mp h1 with ⟨rfl, rfl⟩
        exact ⟨[], by simp⟩
  | cons b bs ih =>
      simp only [isInfixL, Bool.or_eq_true, isPrefixL_iff, ih]
      constructor
      · rintro (⟨t, ht⟩ | ⟨u, v, huv⟩)
        · exact ⟨[], t, by simpa using ht⟩
        · exact ⟨b :: u, v, by simp [huv]⟩
      · rintro ⟨u, v, huv⟩
        cases u with
        | nil =>
            exact Or.inl ⟨v, by simpa using huv⟩
        | cons u0 us =>
            injection huv with h1 h2
            exact Or.inr ⟨us, v, h2⟩

theorem strContains_iff (haystack needle : String) :
    strContains haystack needle = true ↔
      ∃ u v, u ++ needle.data ++ v = haystack.data :=
  isInfixL_iff needle.data haystack.data

/-- Python `str.lower` on the ASCII content involved: lowercase every
character.  (Core's `String.toLower` is the same map, written with a
positional recursion that the kernel cannot evaluate, so we map over the
character list instead.) -/
def lowerStr (s : String) : String :=
  String.mk (s.data.map Char.toLower)

/-! ### Data model -/

/-- A role-tagged message turn (Python dict `{"role": ..., "content": ...}`
as built by `DialogueService.process_message`). -/
structure Message where
  role : String
  content : String
deriving DecidableEq, Repr

/-- Modelled from the spec: a `Call` row (the ORM file `src/models/call.py`
is not among the sources).  The spec lists identifier, caller phone,
status, detected intent and timestamps; we keep the fields the embedded
dialogue code reads or writes (`caller_phone`, `status`, `intent`,
`end_time`); the row identifier is the association-list key. -/
structure CallRec where
  caller_phone : Option String
  status : String
  intent : Option String
  end_time : Option Nat
deriving DecidableEq, Repr

/-- Modelled from the spec: an `Appointment` row (ORM file not among the
sources).  Fields follow the spec's data model and the keyword arguments
used in `DialogueService.create_appointment`, plus the `updated_at`
timestamp written by the `PUT /appointments/{id}` handler; the row
identifier is the association-list key. -/
structure AppointmentRec where
  call_id : Nat
  patient_name : Option String
  patient_phone : Option String
  patient_email : Option String
  appointment_date : Option String
  appointment_time : Option String
  service_type : Option String
  notes : Option String
  status : String
  updated_at : Option Nat
deriving DecidableEq, Repr

/-- Modelled from the spec: the relational store contents — `Call` rows and
`Appointment` rows keyed by integer id, and the flat key→value
`BusinessConfig` table. -/
structure DBData where
  calls : List (Nat × CallRec)
  appointments : List (Nat × AppointmentRec)
  config : List (String × String)
deriving DecidableEq, Repr

/-- The database session: `committed` is the durable store and `current`
the session's view including uncommitted changes.  `db.session.commit()`
copies current into committed; `db.session.rollback()` copies committed
back into current. -/
structure Session where
  committed : DBData
  current : DBData
deriving DecidableEq, Repr

/-- `db.session.commit()`. -/
def commitS (s : Session) : Session :=
  { s with committed := s.current }

/-- `db.session.rollback()`. -/
def rollbackS (s : Session) : Session :=
  { s with current := s.committed }

/-! ### DialogueService (`src/services/dialogue_service.py`) -/

namespace DialogueService

/-- The mutable state of a `DialogueService` instance together with the
database session it talks to.  `hist` is the in-memory
`self.conversation_history` dict, keyed by call id. -/
structure DState where
  hist : List (Nat × List Message)
  sess : Session
deriving DecidableEq, Repr

/-- Outcome of one external chat-completion call
(`self.client.chat.completions.create(...)`): the reply text on success,
or an exception. -/
inductive ChatOutcome where
  | success (reply : String)
  | failure
deriving DecidableEq, Repr

/-- The request handed to `chat.completions.create`: model name, ordered
message list, `max_tokens` bound and sampling `temperature`. -/
structure ChatRequest where
  model : String
  messages : List Message
  max_tokens : Nat
  temperature : Float

/-- The config keys read by `_get_business_context`. -/
def config_keys : List String :=
  ["business_name", "business_hours", "business_address",
   "business_phone", "business_email", "services"]

/-- One entry of `_get_business_context`: the stored value, or the
`[<key> not configured]` placeholder when the key is absent. -/
def contextValue (config : List (String × String)) (key : String) : String :=
  match lookupA config key with
  | some v => v
  | none => "[" ++ key ++ " not configured]"

/-- `_get_system_prompt`: the f-string template instantiated with the
business context read from the config table. -/
def get_system_prompt (config : List (String × String)) : String :=
  "You are an AI receptionist for " ++ contextValue config "business_name"
    ++ ". You are professional, helpful, and friendly.\n\nBusiness Information:\n- Business Name: "
    ++ contextValue config "business_name"
    ++ "\n- Hours: " ++ contextValue config "business_hours"
    ++ "\n- Address: " ++ contextValue config "business_address"
    ++ "\n- Phone: " ++ contextValue config "business_phone"
    ++ "\n- Email: " ++ contextValue config "business_email"
    ++ "\n- Services: " ++ contextValue config "services"
    ++ "\n\nYour responsibilities:\n1. Greet callers professionally\n2. Answer questions about the business\n3. Help schedule appointments\n4. Provide information about services\n5. Take messages when needed\n6. Transfer calls when appropriate\n\nGuidelines:\n- Keep responses conversational and natural\n- Be helpful and patient\n- If you don\x27t know something, say so and offer to take a message\n- For appointments, ask for preferred date/time, contact info, and reason for visit\n- Always confirm important details back to the caller\n\nRespond naturally as if you\x27re speaking on the phone."

/-- The keyword list of `_check_appointment_intent`. -/
def appointment_keywords : List String :=
  ["appointment", "schedule", "book", "meeting", "visit",
   "see the doctor", "consultation", "available"]

/-- The guard of `_check_appointment_intent`:
`any(keyword in user_message.lower() for keyword in appointment_keywords)`. -/
def hasAppointmentIntent (user_message : String) : Bool :=
  appointment_keywords.any (fun k => strContains (lowerStr user_message) k)

/-- `_check_appointment_intent`: on a keyword match, look the call up; if
it exists, set its intent to appointment_scheduling and commit. -/
def check_appointment_intent (user_message : String) (call_id : Nat)
    (s : Session) : Session :=
  if hasAppointmentIntent user_message then
    match lookupA s.current.calls call_id with
    | some call =>
        let call' := { call with intent := some "appointment_scheduling" }
        let cur := { s.current with calls := setA s.current.calls call_id call' }
        commitS { s with current := cur }
    | none => s
  else s

/-- The fallback returned when the OpenAI client is not configured. -/
def no_client_response : String :=
  "I apologize, but I\x27m having technical difficulties. Please call back later."

/-- The fallback returned from the `except` branch of `process_message`. -/
def error_response : String :=
  "I apologize, but I\x27m having trouble processing your request right now. Could you please repeat that?"

/-- The chat-completion request `process_message` builds for a given
state, user message and call id: the system prompt from the current
business config followed by the accumulated history with the user message
appended, `model="gpt-3.5-turbo"`, `max_tokens=200`, `temperature=0.7`. -/
def pmRequest (st : DState) (user_message : String) (call_id : Nat) :
    ChatRequest :=
  { model := "gpt-3.5-turbo"
    messages :=
      { role := "system", content := get_system_prompt st.sess.current.config }
        :: ((lookupA st.hist call_id).getD []
              ++ [{ role := "user", content := user_message }])
    max_tokens := 200
    temperature := 0.7 }

/-- Result of `process_message`: the returned string, the new state, and
the list of chat-completion requests issued during the call. -/
structure PMResult where
  reply : String
  st : DState
  requests : List ChatRequest

/-- `process_message`.  `clientOk` models whether `self.client` is set
after `_ensure_client_initialized`; `chat` is the external
chat-completion endpoint.  On the no-client path it returns the technical
difficulties message without touching any state.  Otherwise it appends
the user message to the history for `call_id` (creating the entry if
absent), issues one chat request, and on success appends the reply to the
history, runs `_check_appointment_intent`, and returns the reply; if the
external call raises, the `except` branch returns the fixed apology (the
user message stays appended, as in the source). -/
def process_message (clientOk : Bool) (chat : ChatRequest → ChatOutcome)
    (user_message : String) (call_id : Nat) (st : DState) : PMResult :=
  if clientOk = false then
    { reply := no_client_response, st := st, requests := [] }
  else
    let h1 := (lookupA st.hist call_id).getD []
        ++ [{ role := "user", content := user_message }]
    let hist1 := setA st.hist call_id h1
    let req := pmRequest st user_message call_id
    match chat req with
    | ChatOutcome.failure =>
        { reply := error_response
          st := { st with hist := hist1 }
          requests := [req] }
    | ChatOutcome.success ai =>
        let h2 := h1 ++ [{ role := "assistant", content := ai }]
        let hist2 := setA st.hist call_id h2
        { reply := ai
          st := { hist := hist2
                  sess := check_appointment_intent user_message call_id st.sess }
          requests := [req] }

/-- The optional fields of the `appointment_data` dict consumed by
`create_appointment` via `.get(...)`. -/
structure AppointmentData where
  patient_name : Option String
  patient_email : Option String
  appointment_date : Option String
  appointment_time : Option String
  service_type : Option String
  notes : Option String
deriving DecidableEq, Repr

/-- `create_appointment`.  Looks the call up; on a missing call returns
`false` with the session untouched.  Otherwise stages the new appointment
row (phone sourced from the call) and the call's intent update, then
commits; `commitFails` models a persistence exception at commit time, in
which case the `except` branch rolls back and returns `false`.
`new_id` models the autoincremented row id assigned at commit. -/
def create_appointment (call_id : Nat) (appointment_data : AppointmentData)
    (commitFails : Bool) (new_id : Nat) (s : Session) : Bool × Session :=
  match lookupA s.current.calls call_id with
  | none => (false, s)
  | some call =>
      let appointment : AppointmentRec :=
        { call_id := call_id
          patient_name := appointment_data.patient_name
          patient_phone := call.caller_phone
          patient_email := appointment_data.patient_email
          appointment_date := appointment_data.appointment_date
          appointment_time := appointment_data.appointment_time
          service_type := appointment_data.service_type
          notes := appointment_data.notes
          status := "scheduled"
          updated_at := none }
      let call' := { call with intent := some "appointment_scheduled" }
      let cur := { s.current with
        appointments := setA s.current.appointments new_id appointment
        calls := setA s.current.calls call_id call' }
      let staged : Session := { s with current := cur }
      if commitFails then (false, rollbackS staged)
      else (true, commitS staged)

/-- `end_conversation`: drop the in-memory history entry for `call_id`
(a no-op when absent), then, if the call row exists, mark it completed
with the end timestamp `now` and commit. -/
def end_conversation (now : Nat) (call_id : Nat) (st : DState) : DState :=
  let hist := eraseA st.hist call_id
  let sess :=
    match lookupA st.sess.current.calls call_id with
    | some call =>
        let call' := { call with status := "completed", end_time := some now }
        let cur := { st.sess.current with
          calls := setA st.sess.current.calls call_id call' }
        commitS { st.sess with current := cur }
    | none => st.sess
  { hist := hist, sess := sess }

end DialogueService

/-! ### SpeechService (`src/services/speech_service.py`) -/

namespace SpeechService

/-- The mutable state of a `SpeechService` instance: whether the lazily
initialized OpenAI client is available, and the initialization flag. -/
structure SState where
  clientOk : Bool
  clientInitialized : Bool
deriving DecidableEq, Repr

/-- `get_available_voices`: returns the hard-coded voice list; the
instance state is ignored by the source. -/
def get_available_voices (_self : SState) : List String :=
  ["alloy", "echo", "fable", "onyx", "nova", "shimmer"]

/-- The positional-parameter count of
`def speech_to_text(self, audio_file_path)` after `self`: exactly one.
The route layer's call sites are checked against this arity, as Python
does before entering the method body. -/
def speech_to_text_arity : Nat := 1

end SpeechService

/-! ### Route handlers (`src/routes/voice_api.py`) -/

namespace VoiceApi

open DialogueService

/-- A Python runtime value, as far as the handlers manipulate one: the
plain string returned by `DialogueService.process_message`, or a dict. -/
inductive PyVal where
  | str (s : String)
  | dict (entries : List (String × String))
deriving DecidableEq, Repr

/-- Python subscripting `value[key]` with a string key: on a dict it is a
lookup (KeyError when absent); on a string it raises
`TypeError: string indices must be integers`. -/
def pySubscript : PyVal → String → Except String String
  | PyVal.str _, _ => Except.error "TypeError: string indices must be integers"
  | PyVal.dict es, k =>
      match lookupA es k with
      | some v => Except.ok v
      | none => Except.error "KeyError"

/-- A Python positional call of a bound method: `arity` is the number of
parameters after `self` in the method's `def`, `nargs` the number of
positional arguments supplied at the call site, and `body` the method's
result.  On a mismatch the call raises TypeError before the method body
(and any try/except inside it) can run. -/
def pyCall {α : Type} (arity nargs : Nat) (body : α) : Except String α :=
  if nargs = arity then Except.ok body
  else Except.error "TypeError: wrong number of positional arguments"

/-- The `audio` part of a multipart upload request: whether the part is
present at all, and its filename. -/
structure UploadRequest where
  hasAudio : Bool
  filename : String
deriving DecidableEq, Repr

/-- Observable outcome of one audio-accepting handler invocation: the
HTTP status returned, whether the temporary upload file was created, and
whether it was deleted before the handler returned. -/
structure RouteOutcome where
  status : Nat
  tempCreated : Bool
  tempDeleted : Bool
deriving DecidableEq, Repr

/-- `process_call` (`POST /process-call`).  Presence and filename checks
run before the temporary file is created.  After creation the handler
saves the upload (`saveOk` models a raising `audio_file.save`), calls
`speech_service.speech_to_text(temp_audio.name)` — one positional
argument, matching the method's arity, and the method catches its own
exceptions, so this step yields text or None (`stt`) — then calls
`dialogue_service.process_message`, which returns a plain string, and
subscripts that string with `dialogue_result["response"]`.  The
resulting TypeError lands in the blanket `except` branch, which returns
500; `os.unlink(temp_audio.name)` further down is never reached, so the
temporary file survives.  The unreachable normal-completion outcome
(unlink then `send_file`, status 200) is kept for completeness. -/
def process_call (req : UploadRequest) (clientOk : Bool)
    (chat : ChatRequest → ChatOutcome) (stt : Option String) (saveOk : Bool)
    (session_id : Nat) (st : DState) : RouteOutcome :=
  if req.hasAudio = false then
    { status := 400, tempCreated := false, tempDeleted := false }
  else if req.filename = "" then
    { status := 400, tempCreated := false, tempDeleted := false }
  else if saveOk = false then
    { status := 500, tempCreated := true, tempDeleted := false }
  else
    match pyCall SpeechService.speech_to_text_arity 1 stt with
    | Except.error _ =>
        { status := 500, tempCreated := true, tempDeleted := false }
    | Except.ok user_text =>
        let dialogue_result : String :=
          (process_message clientOk chat (user_text.getD "") session_id st).reply
        match pySubscript (PyVal.str dialogue_result) "response" with
        | Except.error _ =>
            { status := 500, tempCreated := true, tempDeleted := false }
        | Except.ok _ =>
            { status := 200, tempCreated := true, tempDeleted := true }

/-- `text_chat` (`POST /text-chat`).  On a missing or falsy message it
returns 400.  Otherwise it calls `process_message`, which returns a plain
string, and subscripts it with `result["session_id"]`; the TypeError is
caught by the blanket `except`, yielding 500.  The second component
records whether the documented `{response, intent, session_id}` success
shape was returned. -/
def text_chat (message : Option String) (session_id : Nat) (clientOk : Bool)
    (chat : ChatRequest → ChatOutcome) (st : DState) : Nat × Bool :=
  match message with
  | none => (400, false)
  | some m =>
      if m = "" then (400, false)
      else
        let result : String :=
          (process_message clientOk chat m session_id st).reply
        match pySubscript (PyVal.str result) "session_id" with
        | Except.error _ => (500, false)
        | Except.ok _ => (200, true)

/-- `speech_to_text` (`POST /speech-to-text`).  Presence and filename
checks run before the temporary file is created.  After creation the
upload is saved (`saveOk` models a raising `audio_file.save`; on the
raise, the blanket `except` returns 500 and the unlink is skipped).  The
route then calls `speech_service.speech_to_text(temp_audio.name,
language)` — two positional arguments against the method's single
`audio_file_path` parameter — so the call raises TypeError at the call
site, before the method body and its internal catch-all can run.  The
blanket `except` returns 500 and `os.unlink` is skipped, so the
temporary file survives; the normal-return outcome (unlink, then
`{"text": text}` with 200) is unreachable but kept for completeness. -/
def speech_to_text (req : UploadRequest) (saveOk : Bool)
    (stt : Option String) : RouteOutcome :=
  if req.hasAudio = false then
    { status := 400, tempCreated := false, tempDeleted := false }
  else if req.filename = "" then
    { status := 400, tempCreated := false, tempDeleted := false }
  else if saveOk = false then
    { status := 500, tempCreated := true, tempDeleted := false }
  else
    match pyCall SpeechService.speech_to_text_arity 2 stt with
    | Except.error _ =>
        { status := 500, tempCreated := true, tempDeleted := false }
    | Except.ok _text =>
        { status := 200, tempCreated := true, tempDeleted := true }

/-- The request body of `PUT /appointments/{id}`: each field is `some`
when the corresponding key is present in the JSON body. -/
structure UpdateBody where
  status : Option String
  notes : Option String
deriving DecidableEq, Repr

/-- `update_appointment` (`PUT /appointments/{id}`).  `get_or_404` raises
`werkzeug.exceptions.NotFound` — a subclass of `Exception` — when the id
is unknown, so the handler's blanket `except Exception` catches it and
returns 500, not 404.  On a known id the handler assigns `status` and
`notes` when present in the body, always stamps `updated_at`, and
commits, returning 200 with the row. -/
def update_appointment (appointment_id : Nat) (body : UpdateBody) (now : Nat)
    (s : Session) : Nat × Session :=
  match lookupA s.current.appointments appointment_id with
  | none => (500, s)
  | some appointment =>
      let a1 :=
        match body.status with
        | some v => { appointment with status := v }
        | none => appointment
      let a2 :=
        match body.notes with
        | some v => { a1 with notes := some v }
        | none => a1
      let a3 := { a2 with updated_at := some now }
      let cur := { s.current with
        appointments := setA s.current.appointments appointment_id a3 }
      (200, commitS { s with current := cur })

end VoiceApi

/-! ### Concrete fixtures used by the closed witness theorems -/

namespace Fixtures

open DialogueService

/-- A sample call row: in-progress, no detected intent yet. -/
def call1 : CallRec :=
  { caller_phone := some "+15550100", status := "in_progress",
    intent := none, end_time := none }

/-- A sample appointment row. -/
def appt1 : AppointmentRec :=
  { call_id := 1, patient_name := some "Pat", patient_phone := some "+15550100",
    patient_email := none, appointment_date := some "2026-10-20",
    appointment_time := some "10:00", service_type := some "cleaning",
    notes := some "first visit", status := "scheduled", updated_at := none }

/-- A sample committed store: one call, one appointment, one config key. -/
def db1 : DBData :=
  { calls := [(1, call1)], appointments := [(4, appt1)],
    config := [("business_name", "Acme Dental")] }

/-- A clean session over `db1` (no pending changes). -/
def sess1 : Session := { committed := db1, current := db1 }

/-- A dialogue-service state over `sess1` with empty in-memory history. -/
def st1 : DState := { hist := [], sess := sess1 }

/-- A chat-completion stub that always succeeds with a fixed reply. -/
def chatOk : ChatRequest → ChatOutcome :=
  fun _ => ChatOutcome.success "Certainly, how can I help?"

/-- A chat-completion stub that always raises. -/
def chatFail : ChatRequest → ChatOutcome :=
  fun _ => ChatOutcome.failure

end Fixtures

/-! ### Claim theorems -/

open DialogueService

/-- Conclusion of the C1 claim, for a session whose `call_id` row is
`call`: the intent guard is exactly a substring match of the lowercased
message against the keyword list; on a match the call's intent is set to
`appointment_scheduling` and committed at once; on no match the session
is untouched; the two concrete example messages behave as specified. -/
def IntentDetectionProp (msg : String) (call_id : Nat) (s : Session)
    (call : CallRec) : Prop :=
  (hasAppointmentIntent msg = true ↔
    ∃ k ∈ appointment_keywords, ∃ u v : List Char,
      u ++ k.data ++ v = (lowerStr msg).data)
  ∧ (hasAppointmentIntent msg = true →
      lookupA (check_appointment_intent msg call_id s).current.calls call_id
          = some { call with intent := some "appointment_scheduling" }
        ∧ (check_appointment_intent msg call_id s).committed
            = (check_appointment_intent msg call_id s).current)
  ∧ (hasAppointmentIntent msg = false →
      check_appointment_intent msg call_id s = s)
  ∧ hasAppointmentIntent "Can I BOOK a visit?" = true
  ∧ hasAppointmentIntent "What are your hours?" = false

/-- C1: intent detection in `process_message` is a case-insensitive
substring match of the user's message against the fixed keyword list;
on any match it sets the existing call's intent field to
appointment-scheduling and commits immediately; "Can I BOOK a visit?"
sets the intent and "What are your hours?" does not. -/
theorem C1_intent_detection (msg : String) (call_id : Nat) (s : Session)
    (call : CallRec) (hcall : lookupA s.current.calls call_id = some call) :
    IntentDetectionProp msg call_id s call := by
  refine ⟨?_, ?_, ?_, by decide, by decide⟩
  · simp [hasAppointmentIntent, List.any_eq_true, strContains_iff]
  · intro h
    simp [check_appointment_intent, h, hcall, commitS, lookupA_setA_self]
  · intro h
    simp [check_appointment_intent, h]

/-- Witness for C1 at a concrete session holding call 1. -/
theorem C1_intent_detection_witness :
    lookupA Fixtures.sess1.current.calls 1 = some Fixtures.call1
    ∧ IntentDetectionProp "Can I BOOK a visit?" 1 Fixtures.sess1 Fixtures.call1 :=
  ⟨by decide,
   C1_intent_detection "Can I BOOK a visit?" 1 Fixtures.sess1 Fixtures.call1
     (by decide)⟩

/-- Conclusion of the C2 claim: `create_appointment` succeeds only when
the call exists; a missing call yields failure with the session untouched
(no appointment row written); when the commit raises, the rollback leaves
the session exactly at its (clean) starting state, so neither the
appointment row nor the call's intent update survives. -/
def CreateAppointmentProp (call_id : Nat) (ad : AppointmentData) (cf : Bool)
    (new_id : Nat) (s : Session) : Prop :=
  ((create_appointment call_id ad cf new_id s).1 = true →
      (lookupA s.current.calls call_id).isSome = true)
  ∧ (lookupA s.current.calls call_id = none →
      create_appointment call_id ad cf new_id s = (false, s))
  ∧ (cf = true →
      (create_appointment call_id ad cf new_id s).1 = false
        ∧ (create_appointment call_id ad cf new_id s).2 = s)

/-- C2: `create_appointment` returns success only if the call exists; on
a nonexistent call id it returns failure and writes nothing; on a
persistence failure at commit it rolls back, retaining no partial state. -/
theorem C2_create_appointment_rollback (call_id : Nat)
    (ad : AppointmentData) (cf : Bool) (new_id : Nat) (s : Session)
    (hclean : s.current = s.committed) :
    CreateAppointmentProp call_id ad cf new_id s := by
  unfold CreateAppointmentProp
  cases hc : lookupA s.current.calls call_id with
  | none =>
      refine ⟨?_, ?_, ?_⟩
      · intro h
        simp [create_appointment, hc] at h
      · intro _
        simp [create_appointment, hc]
      · intro _
        simp [create_appointment, hc]
  | some call =>
      refine ⟨fun _ => by simp [hc], by simp [hc], ?_⟩
      intro hcf
      subst hcf
      constructor
      · simp [create_appointment, hc]
      · simp only [create_appointment, hc, rollbackS]
        cases s with
        | mk committed current =>
            simp only at hclean
            simp [hclean]

/-- Witness for C2: a failing commit on the concrete clean session leaves
it unchanged. -/
theorem C2_create_appointment_rollback_witness :
    Fixtures.sess1.current = Fixtures.sess1.committed
    ∧ CreateAppointmentProp 1
        { patient_name := some "Pat", patient_email := none,
          appointment_date := none, appointment_time := none,
          service_type := none, notes := none } true 9 Fixtures.sess1 :=
  ⟨rfl,
   C2_create_appointment_rollback 1
     { patient_name := some "Pat", patient_email := none,
       appointment_date := none, appointment_time := none,
       service_type := none, notes := none } true 9 Fixtures.sess1 rfl⟩

/-- C4: when the external chat-completion call raises, `process_message`
returns the fixed apology string rather than propagating the error. -/
theorem C4_vendor_failure_fallback (chat : ChatRequest → ChatOutcome)
    (msg : String) (call_id : Nat) (st : DState)
    (hfail : chat (pmRequest st msg call_id) = ChatOutcome.failure) :
    (process_message true chat msg call_id st).reply = error_response
      ∧ error_response
        = "I apologize, but I\x27m having trouble processing your request right now. Could you please repeat that?" := by
  constructor
  · simp [process_message, hfail]
  · rfl

/-- Witness for C4: the always-failing chat stub yields the apology. -/
theorem C4_vendor_failure_fallback_witness :
    Fixtures.chatFail (pmRequest Fixtures.st1 "Hello" 1) = ChatOutcome.failure
    ∧ ((process_message true Fixtures.chatFail "Hello" 1 Fixtures.st1).reply
          = error_response
        ∧ error_response
          = "I apologize, but I\x27m having trouble processing your request right now. Could you please repeat that?") :=
  ⟨rfl, C4_vendor_failure_fallback Fixtures.chatFail "Hello" 1 Fixtures.st1 rfl⟩

/-- Conclusion of the C5 claim: after `end_conversation` the in-memory
history entry for the call is gone (a subsequent `process_message`
request therefore carries only the system prompt and the new user turn);
an existing call row is marked completed with the end timestamp and
committed; and a second `end_conversation` with the same timestamp
changes nothing further. -/
def EndConversationProp (now call_id : Nat) (st : DState) : Prop :=
  lookupA (end_conversation now call_id st).hist call_id = none
  ∧ (∀ call, lookupA st.sess.current.calls call_id = some call →
      lookupA (end_conversation now call_id st).sess.current.calls call_id
          = some { call with status := "completed", end_time := some now }
        ∧ (end_conversation now call_id st).sess.committed
            = (end_conversation now call_id st).sess.current)
  ∧ end_conversation now call_id (end_conversation now call_id st)
      = end_conversation now call_id st
  ∧ (∀ msg, (pmRequest (end_conversation now call_id st) msg call_id).messages
      = [{ role := "system",
           content := get_system_prompt
             (end_conversation now call_id st).sess.current.config },
         { role := "user", content := msg }])

/-- C5: `end_conversation` removes the call's in-memory history entry (so
a later `process_message` starts a fresh history), marks an existing call
row completed with an end timestamp, and a repeated call does not fail:
the deletion is a no-op and the row is updated to the same values. -/
theorem C5_end_conversation (now call_id : Nat) (st : DState) :
    EndConversationProp now call_id st := by
  refine ⟨?_, ?_, ?_, ?_⟩
  · simp [end_conversation, lookupA_eraseA_self]
  · intro call hcall
    simp [end_conversation, hcall, commitS, lookupA_setA_self]
  · cases hc : lookupA st.sess.current.calls call_id with
    | none =>
        simp [end_conversation, hc, eraseA_eraseA]
    | some call =>
        simp [end_conversation, hc, commitS, lookupA_setA_self,
          eraseA_eraseA, setA_setA_self]
  · intro msg
    simp [pmRequest, end_conversation, lookupA_eraseA_self]

/-- Witness for C5 at the concrete state holding call 1 and a nonempty
history for it. -/
theorem C5_end_conversation_witness :
    EndConversationProp 50 1
      { hist := [(1, [{ role := "user", content := "Hi" }])],
        sess := Fixtures.sess1 } :=
  C5_end_conversation 50 1
    { hist := [(1, [{ role := "user", content := "Hi" }])],
      sess := Fixtures.sess1 }

/-- Conclusion of the C7 claim: on the success path `process_message`
issues exactly one chat request, whose message list is the system prompt
built from the current business config followed by the accumulated
history ending in the appended user turn, with the fixed model, token
bound and temperature; afterwards the history for the call holds the old
turns plus the user and assistant turns in order, and the reply is
returned. -/
def ProcessMessageSuccessProp (chat : ChatRequest → ChatOutcome)
    (msg : String) (call_id : Nat) (st : DState) (reply : String) : Prop :=
  (process_message true chat msg call_id st).requests
      = [pmRequest st msg call_id]
  ∧ (pmRequest st msg call_id).messages
      = { role := "system",
          content := get_system_prompt st.sess.current.config }
        :: ((lookupA st.hist call_id).getD []
              ++ [{ role := "user", content := msg }])
  ∧ (pmRequest st msg call_id).model = "gpt-3.5-turbo"
  ∧ (pmRequest st msg call_id).max_tokens = 200
  ∧ (pmRequest st msg call_id).temperature = 0.7
  ∧ lookupA (process_message true chat msg call_id st).st.hist call_id
      = some ((lookupA st.hist call_id).getD []
          ++ [{ role := "user", content := msg },
              { role := "assistant", content := reply }])
  ∧ (process_message true chat msg call_id st).reply = reply

/-- C7: on the success path `process_message` appends the user message to
the call's history (creating it if absent), sends exactly one message
list — system prompt from current business config followed by the full
history — with bounded response length and fixed temperature, then
appends the assistant reply and returns it. -/
theorem C7_process_message_success (chat : ChatRequest → ChatOutcome)
    (msg : String) (call_id : Nat) (st : DState) (reply : String)
    (hsucc : chat (pmRequest st msg call_id) = ChatOutcome.success reply) :
    ProcessMessageSuccessProp chat msg call_id st reply := by
  refine ⟨?_, rfl, rfl, rfl, rfl, ?_, ?_⟩
  · simp [process_message, hsucc]
  · simp [process_message, hsucc, lookupA_setA_self]
  · simp [process_message, hsucc]

/-- Witness for C7 with the always-succeeding chat stub on the concrete
state. -/
theorem C7_process_message_success_witness :
    Fixtures.chatOk (pmRequest Fixtures.st1 "Hello" 1)
        = ChatOutcome.success "Certainly, how can I help?"
    ∧ ProcessMessageSuccessProp Fixtures.chatOk "Hello" 1 Fixtures.st1
        "Certainly, how can I help?" :=
  ⟨rfl,
   C7_process_message_success Fixtures.chatOk "Hello" 1 Fixtures.st1
     "Certainly, how can I help?" rfl⟩

/-- C8: a `process_message` call for one call id leaves the history
stored under any other call id exactly as it was. -/
theorem C8_history_isolation (clientOk : Bool)
    (chat : ChatRequest → ChatOutcome) (msg : String)
    (call_id other : Nat) (st : DState) (h : other ≠ call_id) :
    lookupA (process_message clientOk chat msg call_id st).st.hist other
      = lookupA st.hist other := by
  cases clientOk with
  | false => simp [process_message]
  | true =>
      cases hres : chat (pmRequest st msg call_id) with
      | failure =>
          simp [process_message, hres, lookupA_setA_ne _ _ _ _ h]
      | success reply =>
          simp [process_message, hres, lookupA_setA_ne _ _ _ _ h]

/-- Witness for C8 at distinct ids 1 and 2 on a state holding history for
id 2. -/
theorem C8_history_isolation_witness :
    (2 : Nat) ≠ 1
    ∧ lookupA (process_message true Fixtures.chatOk "Hello" 1
            { hist := [(2, [{ role := "user", content := "Other call" }])],
              sess := Fixtures.sess1 }).st.hist 2
        = lookupA
            ({ hist := [(2, [{ role := "user", content := "Other call" }])],
               sess := Fixtures.sess1 } : DState).hist 2 :=
  ⟨by decide,
   C8_history_isolation true Fixtures.chatOk "Hello" 1 2
     { hist := [(2, [{ role := "user", content := "Other call" }])],
       sess := Fixtures.sess1 } (by decide)⟩

/-- C10: `POST /text-chat` with any non-empty message returns 500 and
never the documented success shape: `process_message` hands back a plain
string, the handler subscripts it, and the TypeError lands in the blanket
`except` branch. -/
theorem C10_text_chat_always_500 (msg : String) (session_id : Nat)
    (clientOk : Bool) (chat : ChatRequest → ChatOutcome) (st : DState)
    (hmsg : msg ≠ "") :
    VoiceApi.text_chat (some msg) session_id clientOk chat st = (500, false) := by
  simp [VoiceApi.text_chat, hmsg, VoiceApi.pySubscript]

/-- Witness for C10 at a concrete non-empty message. -/
theorem C10_text_chat_always_500_witness :
    ("What are your hours?" : String) ≠ ""
    ∧ VoiceApi.text_chat (some "What are your hours?") 1 true Fixtures.chatOk
        Fixtures.st1 = (500, false) :=
  ⟨by decide,
   C10_text_chat_always_500 "What are your hours?" 1 true Fixtures.chatOk
     Fixtures.st1 (by decide)⟩

/-- Counterexample to C3 as stated: a well-formed upload to
`/process-call` creates the temporary file and exits with 500 through the
`except` branch (the handler subscripts the plain string returned by
`process_message`, raising a TypeError), so `os.unlink` is never reached
and the file is left behind on that exit path — deletion does not happen
on every exit. -/
theorem C3_counterexample :
    (VoiceApi.process_call { hasAudio := true, filename := "clip.wav" } true
        Fixtures.chatOk (some "hi there") true 1 Fixtures.st1).status = 500
    ∧ (VoiceApi.process_call { hasAudio := true, filename := "clip.wav" } true
        Fixtures.chatOk (some "hi there") true 1 Fixtures.st1).tempCreated
        = true
    ∧ (VoiceApi.process_call { hasAudio := true, filename := "clip.wav" } true
        Fixtures.chatOk (some "hi there") true 1 Fixtures.st1).tempDeleted
        = false := by
  decide

/-- Conclusion of the amended C3 claim: the empty-filename check precedes
temporary-file creation, so an empty-named upload yields 400 with no file
created; but once the temporary file is created it is never deleted on
either audio-accepting route — every request that passes the checks exits
through the blanket `except` with 500 (a raising save; the arity-mismatch
TypeError at `/speech-to-text`'s call into the one-parameter service
method; the string-subscript TypeError in `/process-call`) and the unlink
is skipped. -/
def TempFileProp (req : VoiceApi.UploadRequest) (clientOk : Bool)
    (chat : ChatRequest → ChatOutcome) (stt : Option String) (saveOk : Bool)
    (session_id : Nat) (st : DState) : Prop :=
  (req.hasAudio = true → req.filename = "" →
      VoiceApi.process_call req clientOk chat stt saveOk session_id st
          = { status := 400, tempCreated := false, tempDeleted := false }
        ∧ VoiceApi.speech_to_text req saveOk stt
            = { status := 400, tempCreated := false, tempDeleted := false })
  ∧ (req.hasAudio = true → req.filename ≠ "" →
      VoiceApi.speech_to_text req saveOk stt
          = { status := 500, tempCreated := true, tempDeleted := false }
        ∧ VoiceApi.process_call req clientOk chat stt saveOk session_id st
            = { status := 500, tempCreated := true, tempDeleted := false })

/-- Amended C3: an empty-named upload yields 400 before the temporary
file exists; after creation the file is never deleted — both handlers
always raise past the unlink (raising save, the two-positional-argument
call into the one-parameter `speech_to_text` method, or the string
subscript in `/process-call`) and exit through `except` with 500,
leaving the file behind. -/
theorem C3_amended_tempfile_cleanup (req : VoiceApi.UploadRequest)
    (clientOk : Bool) (chat : ChatRequest → ChatOutcome) (stt : Option String)
    (saveOk : Bool) (session_id : Nat) (st : DState) :
    TempFileProp req clientOk chat stt saveOk session_id st := by
  obtain ⟨hasAudio, filename⟩ := req
  constructor
  · rintro rfl rfl
    exact ⟨rfl, rfl⟩
  · rintro rfl hfn
    cases saveOk with
    | false =>
        exact ⟨by simp [VoiceApi.speech_to_text, hfn],
               by simp [VoiceApi.process_call, hfn]⟩
    | true =>
        constructor
        · simp [VoiceApi.speech_to_text, hfn, VoiceApi.pyCall,
            SpeechService.speech_to_text_arity]
        · simp [VoiceApi.process_call, hfn, VoiceApi.pyCall,
            SpeechService.speech_to_text_arity, VoiceApi.pySubscript]

/-- Witness for the amended C3 at a concrete request. -/
theorem C3_amended_tempfile_cleanup_witness :
    TempFileProp { hasAudio := true, filename := "clip.wav" } true
      Fixtures.chatOk (some "hi there") true 1 Fixtures.st1 :=
  C3_amended_tempfile_cleanup { hasAudio := true, filename := "clip.wav" } true
    Fixtures.chatOk (some "hi there") true 1 Fixtures.st1

/-- Counterexample to C6 as stated: on an unknown appointment id the
handler returns 500, not the claimed 404, because the `NotFound` raised
by `get_or_404` is itself an `Exception` and is swallowed by the
handler's blanket `except` branch. -/
theorem C6_counterexample :
    lookupA Fixtures.sess1.current.appointments 7 = none
    ∧ (VoiceApi.update_appointment 7
          { status := some "cancelled", notes := none } 99 Fixtures.sess1).1
        = 500
    ∧ ¬ (VoiceApi.update_appointment 7
          { status := some "cancelled", notes := none } 99 Fixtures.sess1).1
        = 404 := by
  decide

/-- Conclusion of the amended C6 claim: an unknown id yields 500 with the
session untouched; on a known id the handler mutates only the status
field (when present in the body), the notes field (when present) and the
`updated_at` timestamp — every other field of the row, every other
appointment, and the calls and config tables are unchanged. -/
def UpdateAppointmentProp (appointment_id : Nat) (body : VoiceApi.UpdateBody)
    (now : Nat) (s : Session) : Prop :=
  (lookupA s.current.appointments appointment_id = none →
      VoiceApi.update_appointment appointment_id body now s = (500, s))
  ∧ (∀ a, lookupA s.current.appointments appointment_id = some a →
      (VoiceApi.update_appointment appointment_id body now s).1 = 200
      ∧ lookupA (VoiceApi.update_appointment appointment_id body now
            s).2.current.appointments appointment_id
          = some { a with
              status := (body.status).getD a.status
              notes := match body.notes with
                       | some v => some v
                       | none => a.notes
              updated_at := some now }
      ∧ (∀ id', id' ≠ appointment_id →
          lookupA (VoiceApi.update_appointment appointment_id body now
              s).2.current.appointments id'
            = lookupA s.current.appointments id')
      ∧ (VoiceApi.update_appointment appointment_id body now s).2.current.calls
          = s.current.calls
      ∧ (VoiceApi.update_appointment appointment_id body now s).2.current.config
          = s.current.config)

/-- Amended C6: unknown id gives 500 (the raised 404 is converted by the
blanket `except`); on a known id only status (when present), notes (when
present) and the `updated_at` timestamp change, and nothing else. -/
theorem C6_amended_update_appointment (appointment_id : Nat)
    (body : VoiceApi.UpdateBody) (now : Nat) (s : Session) :
    UpdateAppointmentProp appointment_id body now s := by
  constructor
  · intro hnone
    simp [VoiceApi.update_appointment, hnone]
  · intro a ha
    obtain ⟨bs, bn⟩ := body
    refine ⟨?_, ?_, ?_, ?_, ?_⟩
    · simp [VoiceApi.update_appointment, ha]
    · cases bs <;> cases bn <;>
        simp [VoiceApi.update_appointment, ha, commitS, lookupA_setA_self]
    · intro id' hid
      cases bs <;> cases bn <;>
        simp [VoiceApi.update_appointment, ha, commitS,
          lookupA_setA_ne _ _ _ _ hid]
    · simp [VoiceApi.update_appointment, ha, commitS]
    · simp [VoiceApi.update_appointment, ha, commitS]

/-- Witness for the amended C6 at the concrete session holding
appointment 4. -/
theorem C6_amended_update_appointment_witness :
    lookupA Fixtures.sess1.current.appointments 4 = some Fixtures.appt1
    ∧ UpdateAppointmentProp 4
        { status := some "completed", notes := some "done" } 99
        Fixtures.sess1 :=
  ⟨by decide,
   C6_amended_update_appointment 4
     { status := some "completed", notes := some "done" } 99 Fixtures.sess1⟩

/-- C9: `get_available_voices` returns exactly the fixed 6-element voice
list, whatever the instance state is. -/
theorem C9_available_voices_fixed (s : SpeechService.SState) :
    SpeechService.get_available_voices s
        = ["alloy", "echo", "fable", "onyx", "nova", "shimmer"]
      ∧ (SpeechService.get_available_voices s).length = 6 :=
  ⟨rfl, rfl⟩

end AiVoicePhone
